import Mathlib

/-!
Verification development for the S3-Scoreboard-BLE server core
(`server/ble_manager.py`, `server/events.py`, `server/config.py`,
`server/models.py`), shallowly embedded in Lean 4.

Python strings are modelled as lists of Unicode code points (`Str`),
byte payloads as lists of byte values (`List Nat`).
-/

/-- A Python string: its sequence of Unicode code points. -/
abbrev Str := List Nat

/-- Code points of a Lean string literal, for writing concrete Python strings. -/
def str_ (s : String) : Str := s.data.map Char.toNat

/-- Python whitespace predicate (the code points stripped by `str.strip()`;
ASCII and the standard Unicode whitespace code points). -/
def pyIsSpace (c : Nat) : Bool :=
  ([9, 10, 11, 12, 13, 28, 29, 30, 31, 32, 133, 160, 5760,
    8192, 8193, 8194, 8195, 8196, 8197, 8198, 8199, 8200, 8201, 8202,
    8232, 8233, 8239, 8287, 12288] : List Nat).contains c

/-- Model of Python `str.strip()`: drop whitespace from both ends. -/
def pyStrip (s : Str) : Str :=
  ((s.dropWhile pyIsSpace).reverse.dropWhile pyIsSpace).reverse

/-- Model of Python `str.lower()` restricted to ASCII letters (every string
the repository compares through `.lower()` — service UUIDs, device names,
configured keywords — is ASCII). -/
def pyLower (s : Str) : Str :=
  s.map (fun c => if 65 ≤ c ∧ c ≤ 90 then c + 32 else c)

/-- Whether the first list is a prefix of the second (Boolean form). -/
def listIsPrefix : List Nat → List Nat → Bool
  | [], _ => true
  | _ :: _, [] => false
  | a :: xs, b :: ys => a == b && listIsPrefix xs ys

/-- Model of Python `needle in hay` for strings: contiguous substring test. -/
def isSubstring (needle : List Nat) : List Nat → Bool
  | [] => needle.isEmpty
  | b :: t => listIsPrefix needle (b :: t) || isSubstring needle t

/-- ASCII decimal digit test. -/
def isAsciiDigit (c : Nat) : Bool := 48 ≤ c && c ≤ 57

/-- Digit accumulator for the model of Python `int()`: digits with single
underscores allowed between digits (`int("1_0") = 10`), nothing else. -/
def pyIntDigits : Nat → List Nat → Option Nat
  | acc, [] => some acc
  | acc, c :: t =>
    if isAsciiDigit c then pyIntDigits (acc * 10 + (c - 48)) t
    else if c == 95 then
      match t with
      | d :: t2 => if isAsciiDigit d then pyIntDigits (acc * 10 + (d - 48)) t2 else none
      | [] => none
    else none

/-- Unsigned part of the model of Python `int()`: must start with a digit. -/
def pyIntCore : List Nat → Option Nat
  | [] => none
  | c :: t => if isAsciiDigit c then pyIntDigits 0 (c :: t) else none

/-- Model of Python `int(s)` on a string: strip whitespace, optional sign,
ASCII digits with underscores between digits; `none` models `ValueError`.
(Python additionally accepts non-ASCII decimal digits; every integer literal
this repository parses is ASCII.) -/
def pyInt (s : Str) : Option Int :=
  match pyStrip s with
  | 43 :: rest => (pyIntCore rest).map Int.ofNat
  | 45 :: rest => (pyIntCore rest).map (fun n => -(Int.ofNat n))
  | rest => (pyIntCore rest).map Int.ofNat

/-- UTF-8 continuation byte test. -/
def isCont (b : Nat) : Bool := 128 ≤ b && b ≤ 191

/-- Strict UTF-8 decoder (model of `bytes.decode("utf-8")`): bytes to code
points, rejecting overlong encodings, surrogates and out-of-range values;
`none` models `UnicodeDecodeError`. -/
def utf8Decode : List Nat → Option (List Nat)
  | [] => some []
  | b1 :: t =>
    if b1 < 128 then (utf8Decode t).map (fun s => b1 :: s)
    else if 194 ≤ b1 && b1 ≤ 223 then
      match t with
      | b2 :: t2 =>
        if isCont b2 then (utf8Decode t2).map (fun s => ((b1 - 192) * 64 + (b2 - 128)) :: s)
        else none
      | [] => none
    else if 224 ≤ b1 && b1 ≤ 239 then
      match t with
      | b2 :: b3 :: t3 =>
        let cp := (b1 - 224) * 4096 + (b2 - 128) * 64 + (b3 - 128)
        if isCont b2 && isCont b3 && 2048 ≤ cp && !(55296 ≤ cp && cp ≤ 57343) then
          (utf8Decode t3).map (fun s => cp :: s)
        else none
      | _ => none
    else if 240 ≤ b1 && b1 ≤ 244 then
      match t with
      | b2 :: b3 :: b4 :: t4 =>
        let cp := (b1 - 240) * 262144 + (b2 - 128) * 4096 + (b3 - 128) * 64 + (b4 - 128)
        if isCont b2 && isCont b3 && isCont b4 && 65536 ≤ cp && cp ≤ 1114111 then
          (utf8Decode t4).map (fun s => cp :: s)
        else none
      | _ => none
    else none

/-- Lenient UTF-8 decoder step, fuel-indexed (each step consumes at least one
byte, so fuel equal to the input length always suffices). -/
def utf8DecodeIgnoreF : Nat → List Nat → List Nat
  | 0, _ => []
  | _, [] => []
  | fuel + 1, b1 :: t =>
    if b1 < 128 then b1 :: utf8DecodeIgnoreF fuel t
    else if 194 ≤ b1 && b1 ≤ 223 then
      match t with
      | b2 :: t2 =>
        if isCont b2 then ((b1 - 192) * 64 + (b2 - 128)) :: utf8DecodeIgnoreF fuel t2
        else utf8DecodeIgnoreF fuel t
      | [] => []
    else if 224 ≤ b1 && b1 ≤ 239 then
      match t with
      | b2 :: b3 :: t3 =>
        let cp := (b1 - 224) * 4096 + (b2 - 128) * 64 + (b3 - 128)
        if isCont b2 && isCont b3 && 2048 ≤ cp && !(55296 ≤ cp && cp ≤ 57343) then
          cp :: utf8DecodeIgnoreF fuel t3
        else utf8DecodeIgnoreF fuel t
      | _ => utf8DecodeIgnoreF fuel t
    else if 240 ≤ b1 && b1 ≤ 244 then
      match t with
      | b2 :: b3 :: b4 :: t4 =>
        let cp := (b1 - 240) * 262144 + (b2 - 128) * 4096 + (b3 - 128) * 64 + (b4 - 128)
        if isCont b2 && isCont b3 && isCont b4 && 65536 ≤ cp && cp ≤ 1114111 then
          cp :: utf8DecodeIgnoreF fuel t4
        else utf8DecodeIgnoreF fuel t
      | _ => utf8DecodeIgnoreF fuel t
    else utf8DecodeIgnoreF fuel t

/-- Lenient UTF-8 decoder (model of `bytes.decode(errors="ignore")`):
invalid bytes are skipped one at a time instead of failing. -/
def utf8DecodeIgnore (l : List Nat) : List Nat :=
  utf8DecodeIgnoreF l.length l

/-- Python values as produced by `json.loads` (plus strings built by the
codec's non-JSON branches). `jsonFloat` carries the raw source text of a
JSON number with a fraction or exponent part; the claims exercise no float
payloads, so float arithmetic is not modelled. -/
inductive PyValue where
  | int (n : Int)
  | str (s : Str)
  | bool (b : Bool)
  | null
  | list (xs : List PyValue)
  | dict (kvs : List (Str × PyValue))
  | jsonFloat (raw : Str)

/-- JSON whitespace (the only code points `json.loads` skips between tokens). -/
def jsonWs (c : Nat) : Bool := c == 32 || c == 9 || c == 10 || c == 13

/-- Drop leading JSON whitespace. -/
def jsonSkipWs (s : List Nat) : List Nat := s.dropWhile jsonWs

/-- Value of a hexadecimal digit code point. -/
def hexVal (c : Nat) : Option Nat :=
  if 48 ≤ c ∧ c ≤ 57 then some (c - 48)
  else if 97 ≤ c ∧ c ≤ 102 then some (c - 87)
  else if 65 ≤ c ∧ c ≤ 70 then some (c - 55)
  else none

/-- JSON string body parser (after the opening quote), fuel-indexed; returns
the decoded code points and the input after the closing quote. Handles the
JSON escapes including `\uXXXX` with surrogate-pair combination, and rejects
raw control characters, as `json.loads` does in its default strict mode. -/
def jsonStringF : Nat → List Nat → Option (Str × List Nat)
  | 0, _ => none
  | _, [] => none
  | fuel + 1, c :: t =>
    if c == 34 then some ([], t)
    else if c == 92 then
      match t with
      | [] => none
      | e :: t2 =>
        if e == 34 || e == 92 || e == 47 then
          (jsonStringF fuel t2).map (fun p => (e :: p.1, p.2))
        else if e == 98 then (jsonStringF fuel t2).map (fun p => (8 :: p.1, p.2))
        else if e == 102 then (jsonStringF fuel t2).map (fun p => (12 :: p.1, p.2))
        else if e == 110 then (jsonStringF fuel t2).map (fun p => (10 :: p.1, p.2))
        else if e == 114 then (jsonStringF fuel t2).map (fun p => (13 :: p.1, p.2))
        else if e == 116 then (jsonStringF fuel t2).map (fun p => (9 :: p.1, p.2))
        else if e == 117 then
          match t2 with
          | h1 :: h2 :: h3 :: h4 :: t3 =>
            match hexVal h1, hexVal h2, hexVal h3, hexVal h4 with
            | some v1, some v2, some v3, some v4 =>
              let cp := ((v1 * 16 + v2) * 16 + v3) * 16 + v4
              if 55296 ≤ cp ∧ cp ≤ 56319 then
                match t3 with
                | 92 :: 117 :: g1 :: g2 :: g3 :: g4 :: t5 =>
                  match hexVal g1, hexVal g2, hexVal g3, hexVal g4 with
                  | some w1, some w2, some w3, some w4 =>
                    let cp2 := ((w1 * 16 + w2) * 16 + w3) * 16 + w4
                    if 56320 ≤ cp2 ∧ cp2 ≤ 57343 then
                      (jsonStringF fuel t5).map
                        (fun p => ((65536 + (cp - 55296) * 1024 + (cp2 - 56320)) :: p.1, p.2))
                    else (jsonStringF fuel t3).map (fun p => (cp :: p.1, p.2))
                  | _, _, _, _ => (jsonStringF fuel t3).map (fun p => (cp :: p.1, p.2))
                | _ => (jsonStringF fuel t3).map (fun p => (cp :: p.1, p.2))
              else (jsonStringF fuel t3).map (fun p => (cp :: p.1, p.2))
            | _, _, _, _ => none
          | _ => none
        else none
    else if c < 32 then none
    else (jsonStringF fuel t).map (fun p => (c :: p.1, p.2))

/-- Split a run of ASCII digits off the front of the input. -/
def takeDigits (s : List Nat) : List Nat × List Nat :=
  (s.takeWhile isAsciiDigit, s.dropWhile isAsciiDigit)

/-- Numeric value of a digit run. -/
def digitsToNat (ds : List Nat) : Nat := ds.foldl (fun a c => a * 10 + (c - 48)) 0

/-- Optional JSON fraction part: returns (consumed text, rest). -/
def jsonFrac : List Nat → Option (List Nat × List Nat)
  | 46 :: r =>
    let p := takeDigits r
    if p.1.isEmpty then none else some (46 :: p.1, p.2)
  | s => some ([], s)

/-- Optional JSON exponent part: returns (consumed text, rest). -/
def jsonExp : List Nat → Option (List Nat × List Nat)
  | c :: r =>
    if c == 101 || c == 69 then
      let sr : List Nat × List Nat :=
        match r with
        | 43 :: rr => ([43], rr)
        | 45 :: rr => ([45], rr)
        | _ => ([], r)
      let p := takeDigits sr.2
      if p.1.isEmpty then none else some (c :: (sr.1 ++ p.1), p.2)
    else some ([], c :: r)
  | [] => some ([], [])

/-- JSON number parser: integers become `PyValue.int`; numbers with a
fraction or exponent part become `PyValue.jsonFloat` carrying their raw
text (`json.loads` would build a Python float). Leading zeros are rejected
per the JSON grammar. -/
def jsonNumber (s : List Nat) : Option (PyValue × List Nat) :=
  let sgn : List Nat × List Nat :=
    match s with
    | 45 :: t => ([45], t)
    | _ => ([], s)
  match sgn.2 with
  | [] => none
  | c :: _ =>
    if !isAsciiDigit c then none
    else
      let p := takeDigits sgn.2
      if 1 < p.1.length ∧ p.1.headD 0 == 48 then none
      else
        match jsonFrac p.2 with
        | none => none
        | some fr =>
          match jsonExp fr.2 with
          | none => none
          | some ex =>
            if fr.1.isEmpty ∧ ex.1.isEmpty then
              some (.int (if sgn.1.isEmpty then Int.ofNat (digitsToNat p.1)
                          else -(Int.ofNat (digitsToNat p.1))), p.2)
            else
              some (.jsonFloat (sgn.1 ++ p.1 ++ fr.1 ++ ex.1), ex.2)

/-- Insert a key into a JSON object under construction: a repeated key
overwrites the earlier value in place (`json.loads` builds a dict by
successive assignment, so the last occurrence wins). -/
def dictInsert (kvs : List (Str × PyValue)) (k : Str) (v : PyValue) : List (Str × PyValue) :=
  if (kvs.find? (fun p => p.fst == k)).isSome then
    kvs.map (fun p => if p.fst == k then (k, v) else p)
  else kvs ++ [(k, v)]

mutual

/-- JSON value parser, fuel-indexed (fuel bounds nesting depth; every
recursive call consumes input first, so fuel beyond twice the input length
never runs out). -/
def jsonValueF : Nat → List Nat → Option (PyValue × List Nat)
  | 0, _ => none
  | fuel + 1, s =>
    match s with
    | [] => none
    | c :: t =>
      if c == 34 then (jsonStringF (t.length + 1) t).map (fun p => (PyValue.str p.1, p.2))
      else if c == 123 then
        match jsonSkipWs t with
        | 125 :: r => some (.dict [], r)
        | r => jsonMembersF fuel [] r
      else if c == 91 then
        match jsonSkipWs t with
        | 93 :: r => some (.list [], r)
        | r => jsonArrayF fuel [] r
      else if listIsPrefix (str_ "true") (c :: t) then some (.bool true, (c :: t).drop 4)
      else if listIsPrefix (str_ "false") (c :: t) then some (.bool false, (c :: t).drop 5)
      else if listIsPrefix (str_ "null") (c :: t) then some (.null, (c :: t).drop 4)
      else if listIsPrefix (str_ "NaN") (c :: t) then some (.jsonFloat (str_ "NaN"), (c :: t).drop 3)
      else if listIsPrefix (str_ "Infinity") (c :: t) then
        some (.jsonFloat (str_ "Infinity"), (c :: t).drop 8)
      else if listIsPrefix (str_ "-Infinity") (c :: t) then
        some (.jsonFloat (str_ "-Infinity"), (c :: t).drop 9)
      else jsonNumber (c :: t)

/-- JSON object members parser (after `{` and leading whitespace, at least
one member present). -/
def jsonMembersF : Nat → List (Str × PyValue) → List Nat → Option (PyValue × List Nat)
  | 0, _, _ => none
  | fuel + 1, acc, s =>
    match s with
    | 34 :: t =>
      match jsonStringF (t.length + 1) t with
      | some (k, r1) =>
        match jsonSkipWs r1 with
        | 58 :: r2 =>
          match jsonValueF fuel (jsonSkipWs r2) with
          | some (v, r3) =>
            match jsonSkipWs r3 with
            | 44 :: r4 => jsonMembersF fuel (dictInsert acc k v) (jsonSkipWs r4)
            | 125 :: r4 => some (.dict (dictInsert acc k v), r4)
            | _ => none
          | none => none
        | _ => none
      | none => none
    | _ => none

/-- JSON array items parser (after `[` and leading whitespace, at least one
item present). -/
def jsonArrayF : Nat → List PyValue → List Nat → Option (PyValue × List Nat)
  | 0, _, _ => none
  | fuel + 1, acc, s =>
    match jsonValueF fuel s with
    | some (v, r1) =>
      match jsonSkipWs r1 with
      | 44 :: r2 => jsonArrayF fuel (acc ++ [v]) (jsonSkipWs r2)
      | 93 :: r2 => some (.list (acc ++ [v]), r2)
      | _ => none
    | none => none

end

/-- Model of Python `json.loads` on a string: parse one JSON value with
surrounding whitespace and require the whole input to be consumed; `none`
models `json.JSONDecodeError`. -/
def json_loads (s : Str) : Option PyValue :=
  match jsonValueF (2 * s.length + 8) (jsonSkipWs s) with
  | some (v, rest) => if (jsonSkipWs rest).isEmpty then some v else none
  | none => none

/-- Split a string at its first `:` (model of `text.split(":", 1)` when a
colon is present; `none` when the text has no colon). -/
def splitOnceColon : List Nat → Option (List Nat × List Nat)
  | [] => none
  | c :: t =>
    if c == 58 then some ([], t)
    else (splitOnceColon t).map (fun p => (c :: p.1, p.2))

/-- Second decode branch of `BLEManager._parse_rx_data` (lines 339-352):
the stripped text either splits at the first `:` into a game name and an
integer score, or is parsed whole as an integer score. -/
def parseSimpleText (text : Str) : Option PyValue :=
  match splitOnceColon text with
  | some p =>
    (pyInt (pyStrip p.2)).map
      (fun n => .dict [(str_ "game_name", .str (pyStrip p.1)), (str_ "score", .int n)])
  | none => (pyInt text).map (fun n => .dict [(str_ "score", .int n)])

/-- Little-endian unsigned 32-bit read of the first four bytes (model of
`struct.unpack_from("<I", data, 0)[0]`). -/
def le32 (data : List Nat) : Nat :=
  data.getD 0 0 + data.getD 1 0 * 256 + data.getD 2 0 * 65536 + data.getD 3 0 * 16777216

/-- `BLEManager._parse_rx_data` (ble_manager.py lines 323-364): empty input
yields `none`; otherwise try UTF-8 JSON, then the simple text format, then
the 4-byte little-endian binary score; any branch failure moves to the next
branch and `none` reports total failure, never an error. -/
def parse_rx_data (data : List Nat) : Option PyValue :=
  if data.isEmpty then none
  else
    match (utf8Decode data).bind (fun s => json_loads (pyStrip s)) with
    | some v => some v
    | none =>
      match (utf8Decode data).bind (fun s => parseSimpleText (pyStrip s)) with
      | some v => some v
      | none =>
        if 4 ≤ data.length then some (.dict [(str_ "score", .int (Int.ofNat (le32 data)))])
        else none

/-- `BLEManager._parse_tx_data` (ble_manager.py lines 366-369): the legacy
entry point redirects to `_parse_rx_data`. -/
def parse_tx_data (data : List Nat) : Option PyValue :=
  parse_rx_data data

/-- `COLOR_PALETTE` (ble_manager.py lines 30-47): the sixteen fixed display
colors. -/
def COLOR_PALETTE : List Str :=
  [str_ "#FF6B6B", str_ "#4ECDC4", str_ "#1A535C", str_ "#FF9F1C",
   str_ "#2EC4B6", str_ "#E71D36", str_ "#6A4C93", str_ "#1982C4",
   str_ "#8AC926", str_ "#FF595E", str_ "#FFCA3A", str_ "#6A994E",
   str_ "#386641", str_ "#8338EC", str_ "#3A86FF", str_ "#FB5607"]

/-- The accumulator loop of `deterministic_color` (ble_manager.py lines
51-53): `h = (h * 31 + ord(c)) & 0xFFFFFFFF` over the key's characters. -/
def colorHashLoop : Nat → List Nat → Nat
  | h, [] => h
  | h, c :: t => colorHashLoop ((h * 31 + c) &&& 4294967295) t

/-- `deterministic_color` (ble_manager.py lines 50-54): polynomial hash of
the key, masked to 32 bits at each step, indexing the fixed palette. -/
def deterministic_color (key : Str) : Str :=
  COLOR_PALETTE.getD (colorHashLoop 0 key % COLOR_PALETTE.length) []

/-- The configuration the security filter and scan loop consult
(config.py): target service UUID, the strict-filtering toggle and the
comma-configured device-name keyword allow-list. -/
structure BLEConfig where
  service_uuid : Str
  strict : Bool
  allowed_patterns : List Str

/-- Platform metadata of an advertisement as `_device_matches` reads it:
service-data entries (key and the `str(value)` rendering of the value),
the service-UUID list, and the `str(value)` renderings of the
manufacturer-data values. -/
structure AdvMetadata where
  service_data : List (Str × Str)
  service_uuids : List Str
  manufacturer_values : List Str

/-- An advertisement record as `_device_matches` and the scan loop read it:
address, optional name, the platform `props`/`UUIDs` entry when retrievable
(`none` otherwise), and metadata (`none` when absent or empty, which Python
treats as falsy). -/
structure AdvRecord where
  address : Str
  name : Option Str
  uuids : Option (List Str)
  metadata : Option AdvMetadata

/-- `BLEManager._device_matches` (ble_manager.py lines 144-185), direct
translation: advertised-UUID check, metadata service-data-key check,
metadata service-UUID-list check, manufacturer/service data value check,
then the permissive or strict fallback. -/
def device_matches (cfg : BLEConfig) (d : AdvRecord) : Bool :=
  let target := pyLower cfg.service_uuid
  let c1 : Bool :=
    match d.uuids with
    | some us => !us.isEmpty && decide (target ∈ us.map pyLower)
    | none => false
  if c1 then true
  else
    let mcheck : Bool :=
      match d.metadata with
      | some m =>
        if decide (target ∈ m.service_data.map (fun p => pyLower p.fst)) then true
        else if decide (target ∈ m.service_uuids.map pyLower) then true
        else
          let advValues :=
            if m.manufacturer_values.isEmpty then m.service_data.map (fun p => p.snd)
            else m.manufacturer_values
          advValues.any (fun v => isSubstring target (pyLower v))
      | none => false
    if mcheck then true
    else if !cfg.strict then
      let device_name := pyLower (match d.name with | some n => n | none => [])
      if !device_name.isEmpty
          && cfg.allowed_patterns.any (fun kw => isSubstring (pyLower (pyStrip kw)) device_name)
      then true
      else true
    else false

/-- Step 1 of the filter cascade as the claim states it: the target service
UUID occurs (case-insensitively) in the advertised UUID list. -/
def matchesAdvertisedUuids (cfg : BLEConfig) (d : AdvRecord) : Bool :=
  match d.uuids with
  | some us => decide (pyLower cfg.service_uuid ∈ us.map pyLower)
  | none => false

/-- Step 2 of the filter cascade as the claim states it: the target UUID
occurs in the metadata service-data keys or service-UUID list. -/
def matchesMetadataUuids (cfg : BLEConfig) (d : AdvRecord) : Bool :=
  match d.metadata with
  | some m =>
    decide (pyLower cfg.service_uuid ∈ m.service_data.map (fun p => pyLower p.fst))
      || decide (pyLower cfg.service_uuid ∈ m.service_uuids.map pyLower)
  | none => false

/-- Step 3 of the filter cascade as the claim states it: the target UUID
occurs textually inside the manufacturer-data values, or inside the
service-data values when no manufacturer data is present. -/
def matchesDataValues (cfg : BLEConfig) (d : AdvRecord) : Bool :=
  match d.metadata with
  | some m =>
    (if m.manufacturer_values.isEmpty then m.service_data.map (fun p => p.snd)
     else m.manufacturer_values).any
      (fun v => isSubstring (pyLower cfg.service_uuid) (pyLower v))
  | none => false

/-- C1: the payload codec tries JSON, then text, then 4-byte little-endian,
and never errors; four of the spec's examples hold, but `decode(b"42")`
returns the bare JSON value `42` (an int) rather than the claimed record
`score=42`, because `json.loads` accepts top-level numbers — contradicting
the function's own `Optional[Dict]` annotation. -/
theorem c1_codec_examples_and_bug :
    parse_rx_data (str_ "\x7b\"game_name\": \"X\", \"score\": 5\x7d")
        = some (.dict [(str_ "game_name", .str (str_ "X")), (str_ "score", .int 5)])
      ∧ parse_rx_data (str_ "42") = some (.int 42)
      ∧ some (PyValue.int 42) ≠ some (PyValue.dict [(str_ "score", PyValue.int 42)])
      ∧ parse_rx_data (str_ "Foo:7")
        = some (.dict [(str_ "game_name", .str (str_ "Foo")), (str_ "score", .int 7)])
      ∧ parse_rx_data [44, 1, 0, 0] = some (.dict [(str_ "score", .int 300)])
      ∧ parse_rx_data [] = none := by
  refine ⟨rfl, rfl, ?_, rfl, rfl, rfl⟩
  intro h
  exact PyValue.noConfusion (Option.some.inj h)

/-- C10: the legacy decoder entry point `_parse_tx_data` returns exactly the
result of `_parse_rx_data` on every byte input. -/
theorem c10_parse_tx_eq_parse_rx :
    ∀ data : List Nat, parse_tx_data data = parse_rx_data data :=
  fun _ => rfl

/-- C2: the security filter accepts exactly when one of the three UUID
checks hits or strict mode is disabled — in particular every record
reaching the final step is accepted when strict mode is off (whether or not
its name matches a keyword), and rejected when strict mode is on and no
UUID check hit. -/
theorem c2_filter_cascade (cfg : BLEConfig) (d : AdvRecord) :
    device_matches cfg d
      = (matchesAdvertisedUuids cfg d || matchesMetadataUuids cfg d
         || matchesDataValues cfg d || !cfg.strict) := by
  rcases d with ⟨addr, name, uuids, metadata⟩
  unfold device_matches matchesAdvertisedUuids matchesMetadataUuids matchesDataValues
  rcases uuids with _ | us
  · cases metadata <;> cases hs : cfg.strict <;> simp_all [Bool.or_assoc]
  · rcases us with _ | ⟨u, us⟩ <;> cases metadata <;> cases hs : cfg.strict <;>
      simp_all [Bool.or_assoc]

/-- `MAX_DEVICES` (config.py line 39): maximum tile count, 9 x 6 = 54. -/
def MAX_DEVICES : Nat := 54

/-- The shared mutable state the scan loop consults before spawning:
the Registry keys (`self.devices`) and the client-handle keys
(`self._clients`). -/
structure ScanState where
  devices : List Str
  clients : List Str

/-- The session-spawning part of one `_scan_loop` cycle (ble_manager.py
lines 101-122): walk the discovered records, break once the Registry holds
`MAX_DEVICES` entries, and spawn a `_connect_device` task for every
filter-accepted record whose address has no live client handle (both the
new-device and the reconnect branch spawn). Returns the addresses spawned. -/
def scanCycleSpawns (cfg : BLEConfig) (st : ScanState) : List AdvRecord → List Str
  | [] => []
  | d :: rest =>
    if MAX_DEVICES ≤ st.devices.length then []
    else if device_matches cfg d then
      if !(st.devices.contains d.address) && !(st.clients.contains d.address) then
        d.address :: scanCycleSpawns cfg st rest
      else if st.devices.contains d.address && !(st.clients.contains d.address) then
        d.address :: scanCycleSpawns cfg st rest
      else scanCycleSpawns cfg st rest
    else scanCycleSpawns cfg st rest

/-- One iteration of the `_scan_loop` failure bookkeeping (ble_manager.py
lines 84-142), abstracted to the consecutive-error counter and the cycle's
sleep length in units of `SCAN_INTERVAL`: a successful cycle resets the
counter and sleeps one interval; a failed cycle increments it, and on
reaching `max_consecutive_errors = 5` sleeps three intervals, resets the
counter and skips the normal sleep (`continue`). -/
def scanStep (errors : Nat) (ok : Bool) : Nat × Nat :=
  if ok then (0, 1)
  else if 5 ≤ errors + 1 then (0, 3)
  else (errors + 1, 1)

/-- Iterate the scan-loop bookkeeping over a list of cycle outcomes,
returning the final counter and the per-cycle sleep lengths. -/
def runScan : Nat → List Bool → Nat × List Nat
  | e, [] => (e, [])
  | e, ok :: rest =>
    let s := scanStep e ok
    let r := runScan s.1 rest
    (r.1, s.2 :: r.2)

/-- The atomic actions a Registry mutation path performs on the shared
state, in program order: taking and leaving the `async with self._lock`
block, mutating `self.devices` / `self._clients`, and publishing on the
event bus. -/
inductive LockAction where
  | acquire
  | release
  | mutate
  | publish

/-- `_connect_device` insert path (ble_manager.py lines 238-242): Registry
and client-map insertion inside the lock block, `device_added` published
after it. -/
def connectInsertActions : List LockAction :=
  [.acquire, .mutate, .mutate, .release, .publish]

/-- `_update_score` changed-score path (ble_manager.py lines 373-379):
score mutation inside the lock block, `device_updated` published after
it. -/
def updateScoreActions : List LockAction :=
  [.acquire, .mutate, .release, .publish]

/-- `_handle_disconnect` path (ble_manager.py lines 383-387): client and
Registry removal inside the lock block, `device_removed` published after
it. -/
def handleDisconnectActions : List LockAction :=
  [.acquire, .mutate, .mutate, .release, .publish]

/-- `_handle_rx_data` changed path (ble_manager.py lines 280-301): field
mutation and the `device_updated` publish both inside the lock block. -/
def handleRxActions : List LockAction :=
  [.acquire, .mutate, .publish, .release]

/-- Whether every publish in the trace occurs while the lock is held
(acquire depth strictly positive), starting from the given depth. -/
def publishesUnderLock : Nat → List LockAction → Bool
  | _, [] => true
  | d, .acquire :: t => publishesUnderLock (d + 1) t
  | d, .release :: t => publishesUnderLock (d - 1) t
  | d, .mutate :: t => publishesUnderLock d t
  | d, .publish :: t => decide (0 < d) && publishesUnderLock d t

/-- Whether every shared-state mutation in the trace occurs while the lock
is held, starting from the given depth. -/
def mutatesUnderLock : Nat → List LockAction → Bool
  | _, [] => true
  | d, .acquire :: t => mutatesUnderLock (d + 1) t
  | d, .release :: t => mutatesUnderLock (d - 1) t
  | d, .mutate :: t => decide (0 < d) && mutatesUnderLock d t
  | d, .publish :: t => mutatesUnderLock d t

/-- An `asyncio.Queue` as the event bus uses it: its `maxsize` (0 or
negative means unbounded) and its current items. -/
structure PyQueue (α : Type) where
  maxsize : Int
  items : List α

/-- Model of `asyncio.Queue.full()`: never full when `maxsize <= 0`,
otherwise full when the item count has reached `maxsize`. -/
def PyQueue.full (q : PyQueue α) : Bool :=
  if q.maxsize ≤ 0 then false else decide ((q.maxsize : Int) ≤ q.items.length)

/-- Model of `asyncio.Queue.put_nowait`: `none` models raising
`QueueFull`. -/
def PyQueue.put_nowait (q : PyQueue α) (x : α) : Option (PyQueue α) :=
  if q.full then none else some ⟨q.maxsize, q.items ++ [x]⟩

/-- `EventBus.subscribe` (events.py lines 12-16): create `asyncio.Queue()`
with the default `maxsize=0`, append it to the subscriber list under the
lock, and return it. -/
def EventBus.subscribe (subs : List (PyQueue α)) : List (PyQueue α) × PyQueue α :=
  (subs ++ [⟨0, []⟩], ⟨0, []⟩)

/-- `EventBus.publish` (events.py lines 23-30): `put_nowait` the event onto
every currently-registered queue, leaving a queue unchanged when
`put_nowait` raises `QueueFull` (the event is silently dropped for that
subscriber). -/
def EventBus.publish (subs : List (PyQueue α)) (e : α) : List (PyQueue α) :=
  subs.map (fun q => match q.put_nowait e with | some q2 => q2 | none => q)

/-- Integer value of a Python bool (`True == 1`, `False == 0`). -/
def pyBoolInt (b : Bool) : Int := if b then 1 else 0

mutual

/-- Model of Python `==` on decoded values: numeric equality across int and
bool, structural equality on strings, lists and dicts (dicts compare by key
set and values, order-independently); `jsonFloat` compares by raw text (a
documented approximation — no claim exercises float payloads). -/
def pyEq : PyValue → PyValue → Bool
  | .int a, .int b => a == b
  | .int a, .bool b => a == pyBoolInt b
  | .bool a, .int b => pyBoolInt a == b
  | .bool a, .bool b => a == b
  | .str a, .str b => a == b
  | .null, .null => true
  | .list a, .list b => pyEqList a b
  | .dict a, .dict b => a.length == b.length && pyEqDictSub a b
  | .jsonFloat a, .jsonFloat b => a == b
  | _, _ => false

/-- Elementwise Python `==` on lists. -/
def pyEqList : List PyValue → List PyValue → Bool
  | [], [] => true
  | a :: xs, b :: ys => pyEq a b && pyEqList xs ys
  | _, _ => false

/-- Every key of the first dict is present in the second with an equal
value. -/
def pyEqDictSub : List (Str × PyValue) → List (Str × PyValue) → Bool
  | [], _ => true
  | (k, v) :: t, b =>
    (match b.find? (fun p => p.fst == k) with
     | some p => pyEq v p.snd
     | none => false) && pyEqDictSub t b

end

/-- Lookup in a decoded dict (`data[key]` / `key in data`). -/
def lookupD (kvs : List (Str × PyValue)) (k : Str) : Option PyValue :=
  (kvs.find? (fun p => p.fst == k)).map (fun p => p.snd)

/-- `.get(key, default)` on a decoded dict. -/
def pyGetD (kvs : List (Str × PyValue)) (k : Str) (dflt : PyValue) : PyValue :=
  match lookupD kvs k with
  | some v => v
  | none => dflt

/-- Python truthiness of a decoded value (`if parsed_data:`); `jsonFloat`
is approximated as truthy (no claim exercises float payloads). -/
def pyTruthy : PyValue → Bool
  | .int n => decide (n ≠ 0)
  | .str s => !s.isEmpty
  | .bool b => b
  | .null => false
  | .list xs => !xs.isEmpty
  | .dict kvs => !kvs.isEmpty
  | .jsonFloat _ => true

/-- `DeviceState` (models.py lines 7-22). Python does not enforce the
`str`/`int` field annotations and the RX path assigns whatever the decoded
record holds, so `game_name` and `score` are modelled as decoded values. -/
structure DeviceState where
  id : Str
  name : Str
  game_name : PyValue
  score : PyValue
  color : Str

/-- The events the manager publishes on the bus. -/
inductive Event where
  | device_added (d : DeviceState)
  | device_updated (d : DeviceState)
  | device_removed (id : Str)

/-- The Registry: the `self.devices` mapping from address to state. -/
abbrev Registry := List (Str × DeviceState)

/-- Registry lookup (`addr in self.devices` / `self.devices[addr]`). -/
def lookupReg (reg : Registry) (a : Str) : Option DeviceState :=
  (reg.find? (fun p => p.fst == a)).map (fun p => p.snd)

/-- Registry in-place update of the entry for an address. -/
def setReg (reg : Registry) (a : Str) (d : DeviceState) : Registry :=
  reg.map (fun p => if p.fst == a then (a, d) else p)

/-- `BLEManager._handle_rx_data` (ble_manager.py lines 278-301): under the
lock, return unchanged when the address is not registered; otherwise update
`game_name` and `score` from the decoded record when present and different,
and publish one `device_updated` event exactly when something changed. -/
def handle_rx_data (reg : Registry) (addr : Str) (data : List (Str × PyValue)) :
    Registry × List Event :=
  match lookupReg reg addr with
  | none => (reg, [])
  | some dev =>
    let r1 : DeviceState × Bool :=
      match lookupD data (str_ "game_name") with
      | some v =>
        if pyEq v dev.game_name then (dev, false) else ({ dev with game_name := v }, true)
      | none => (dev, false)
    let r2 : DeviceState × Bool :=
      match lookupD data (str_ "score") with
      | some v =>
        if pyEq v r1.1.score then (r1.1, false) else ({ r1.1 with score := v }, true)
      | none => (r1.1, false)
    if r1.2 || r2.2 then (setReg reg addr r2.1, [Event.device_updated r2.1])
    else (reg, [])

/-- The change condition of C9: the address is registered and the decoded
record carries a `game_name` or `score` differing from the stored state. -/
def rxChanged (reg : Registry) (addr : Str) (data : List (Str × PyValue)) : Prop :=
  ∃ dev, lookupReg reg addr = some dev ∧
    ((∃ v, lookupD data (str_ "game_name") = some v ∧ pyEq v dev.game_name = false)
      ∨ (∃ v, lookupD data (str_ "score") = some v ∧ pyEq v dev.score = false))

/-- The external interactions of one `_connect_device` session: the record's
address and name, the enumerated service UUIDs of the connected peripheral,
and the outcomes of the initial RX read and the legacy TX read (`none`
models the read raising). -/
structure ConnectInputs where
  address : Str
  name : Option Str
  services : List Str
  rx_read : Option (List Nat)
  tx_read : Option (List Nat)

/-- What a `_connect_device` session did: the Registry insertion if any, the
events it published, and whether it closed the transport. -/
structure ConnectResult where
  added : Option DeviceState
  events : List Event
  closed : Bool

/-- The legacy TX-characteristic fallback inside `_connect_device`
(ble_manager.py lines 222-228): decode ignoring errors, strip, keep the
default game name when the result is empty or the read raised. -/
def legacyNameFallback (g0 : PyValue) (tx_read : Option (List Nat)) : PyValue :=
  match tx_read with
  | none => g0
  | some raw =>
    let t := pyStrip (utf8DecodeIgnore raw)
    if t.isEmpty then g0 else .str t

/-- `_connect_device` (ble_manager.py lines 187-276) as a function of the
session's external interactions. A failed connect closes and discards; a
connected peripheral whose services lack the target UUID (case-insensitive)
is disconnected with nothing inserted and nothing published; otherwise the
initial payload seeds `game_name`/`score` through the codec (a truthy
non-dict decode makes `.get` raise, caught by the legacy TX fallback), the
state is inserted and one `device_added` event is published. -/
def connect_device (cfg : BLEConfig) (inp : ConnectInputs) (connect_ok : Bool) :
    ConnectResult :=
  if !connect_ok then { added := none, events := [], closed := true }
  else if !(decide (pyLower cfg.service_uuid ∈ inp.services.map pyLower)) then
    { added := none, events := [], closed := true }
  else
    let g0 : PyValue := .str (str_ "Unknown Game")
    let s0 : PyValue := .int 0
    let gs : PyValue × PyValue :=
      match inp.rx_read with
      | none => (legacyNameFallback g0 inp.tx_read, s0)
      | some raw =>
        match parse_rx_data raw with
        | none => (g0, s0)
        | some v =>
          if pyTruthy v then
            match v with
            | .dict kvs => (pyGetD kvs (str_ "game_name") g0, pyGetD kvs (str_ "score") s0)
            | _ => (legacyNameFallback g0 inp.tx_read, s0)
          else (g0, s0)
    let nm : Str :=
      match inp.name with
      | some n => if n.isEmpty then inp.address else n
      | none => inp.address
    let st : DeviceState :=
      { id := inp.address, name := nm, game_name := gs.1, score := gs.2
        color := deterministic_color inp.address }
    { added := some st, events := [Event.device_added st], closed := false }

/-- The accumulator loop of `deterministic_color` is the left fold of the
masked polynomial-hash step. -/
theorem colorHashLoop_eq_foldl (l : List Nat) :
    ∀ h : Nat, colorHashLoop h l = l.foldl (fun a c => (a * 31 + c) &&& 4294967295) h := by
  induction l with
  | nil => intro h; rfl
  | cons c t ih => intro h; simpa [colorHashLoop] using ih ((h * 31 + c) &&& 4294967295)

/-- C6: the color function is pure and total, and equals indexing the
sixteen-entry palette by the 32-bit-masked polynomial hash of the
identifier modulo 16, so every call on the same identifier yields the
identical palette color. -/
theorem c6_deterministic_color (key : Str) :
    deterministic_color key
        = COLOR_PALETTE.getD
            ((key.foldl (fun h c => (h * 31 + c) &&& 4294967295) 0) % 16) []
      ∧ COLOR_PALETTE.length = 16 := by
  refine ⟨?_, rfl⟩
  unfold deterministic_color
  rw [colorHashLoop_eq_foldl]
  rfl

/-- C7: a successful scan resets the consecutive-error counter; fewer than
five consecutive failures sleep the normal interval each cycle and never
an elongated one; the fifth consecutive failure sleeps exactly once for
three intervals and resets the counter, resuming normal cadence. -/
theorem c7_scan_backoff :
    (∀ n : Nat, n < 5 →
        runScan 0 (List.replicate n false) = (n, List.replicate n 1))
      ∧ runScan 0 (List.replicate 5 false) = (0, [1, 1, 1, 1, 3])
      ∧ (∀ e : Nat, scanStep e true = (0, 1))
      ∧ (∀ e : Nat, e + 1 < 5 → scanStep e false = (e + 1, 1)) := by
  refine ⟨?_, by decide, fun e => rfl, ?_⟩
  · intro n h
    interval_cases n <;> decide
  · intro e h
    unfold scanStep
    rw [if_neg (by simp), if_neg (by omega)]

/-- Witness for C7 at concrete inputs: four consecutive failures keep the
normal cadence, and a fourth consecutive failure sleeps one interval. -/
theorem c7_scan_backoff_witness :
    (4 < 5 ∧ runScan 0 (List.replicate 4 false) = (4, List.replicate 4 1))
      ∧ (3 + 1 < 5 ∧ scanStep 3 false = (4, 1)) :=
  ⟨⟨by decide, c7_scan_backoff.1 4 (by decide)⟩,
   ⟨by decide, c7_scan_backoff.2.2.2 3 (by decide)⟩⟩

/-- A Registry with 53 distinct device ids. -/
def devices53 : List Str := (List.range 53).map (fun n => [n])

/-- The default configuration with strict filtering disabled
(config.py lines 9, 27, 30). -/
def cfgPermissive : BLEConfig :=
  { service_uuid := str_ "c9b9a344-a062-4e55-a507-441c7e610e2c"
    strict := false
    allowed_patterns := [str_ "scoreboard", str_ "game", str_ "ble"] }

/-- An advertisement record with no name, no advertised UUIDs and no
metadata. -/
def advPlain (a : Str) : AdvRecord :=
  { address := a, name := none, uuids := none, metadata := none }

/-- C5 counterexample: with 53 devices in the Registry and two new matching
records discovered in one cycle, the scan loop spawns both sessions, so the
union of connected and connecting device ids reaches 55 distinct ids,
exceeding `MAX_DEVICES = 54` — in-flight sessions are not counted against
the cap. -/
theorem c5_counterexample :
    scanCycleSpawns cfgPermissive ⟨devices53, []⟩ [advPlain [100], advPlain [101]]
        = [[100], [101]]
      ∧ (devices53 ++ [[100], [101]]).Nodup
      ∧ MAX_DEVICES < (devices53 ++ [[100], [101]]).length :=
  ⟨rfl, by decide, by decide⟩

/-- C5 amended: the cap the scan loop actually enforces counts only the
Registry — once the Registry alone holds `MAX_DEVICES` entries, a cycle
spawns no session at all. -/
theorem c5_registry_cap (cfg : BLEConfig) (st : ScanState) (found : List AdvRecord)
    (h : MAX_DEVICES ≤ st.devices.length) :
    scanCycleSpawns cfg st found = [] := by
  cases found <;> simp [scanCycleSpawns, h]

/-- Witness for C5 amended: a full Registry of 54 devices stops a matching
record from spawning. -/
theorem c5_registry_cap_witness :
    MAX_DEVICES ≤ ((List.range 54).map (fun n => [n]) : List Str).length
      ∧ scanCycleSpawns cfgPermissive ⟨(List.range 54).map (fun n => [n]), []⟩
          [advPlain [100]] = [] :=
  ⟨by decide, c5_registry_cap cfgPermissive ⟨(List.range 54).map (fun n => [n]), []⟩
      [advPlain [100]] (by decide)⟩

/-- C4 counterexample: on the insert, legacy-score-update and disconnect
paths, the read-modify-publish sequence is not one atomic step under the
mutex — the publish happens after the lock block is left. -/
theorem c4_counterexample :
    (mutatesUnderLock 0 connectInsertActions
        && publishesUnderLock 0 connectInsertActions) = false
      ∧ (mutatesUnderLock 0 updateScoreActions
        && publishesUnderLock 0 updateScoreActions) = false
      ∧ (mutatesUnderLock 0 handleDisconnectActions
        && publishesUnderLock 0 handleDisconnectActions) = false :=
  ⟨rfl, rfl, rfl⟩

/-- C4 amended: every mutation path performs its Registry mutation under
the single shared mutex, but the insert, legacy-score-update and disconnect
paths publish their event only after releasing the lock; only the RX-data
update path publishes while holding it. -/
theorem c4_lock_scoping :
    mutatesUnderLock 0 connectInsertActions = true
      ∧ publishesUnderLock 0 connectInsertActions = false
      ∧ mutatesUnderLock 0 updateScoreActions = true
      ∧ publishesUnderLock 0 updateScoreActions = false
      ∧ mutatesUnderLock 0 handleDisconnectActions = true
      ∧ publishesUnderLock 0 handleDisconnectActions = false
      ∧ mutatesUnderLock 0 handleRxActions = true
      ∧ publishesUnderLock 0 handleRxActions = true :=
  ⟨rfl, rfl, rfl, rfl, rfl, rfl, rfl, rfl⟩

/-- C3 counterexample: the queue `subscribe` registers and returns is not
bounded — it is created with the `asyncio.Queue()` default `maxsize=0`, is
never full at any length, and `put_nowait` still succeeds after a thousand
queued events. -/
theorem c3_counterexample :
    (EventBus.subscribe ([] : List (PyQueue Nat))).2.maxsize = 0
      ∧ PyQueue.full (⟨0, List.replicate 1000 0⟩ : PyQueue Nat) = false
      ∧ (PyQueue.put_nowait (⟨0, List.replicate 1000 0⟩ : PyQueue Nat) 7).isSome = true :=
  ⟨rfl, rfl, rfl⟩

/-- C3 amended: `subscribe` registers and returns a new unbounded
(`maxsize=0`) per-subscriber queue, and `publish` is total (never raises or
blocks the publisher): a full queue keeps its contents with the event
silently dropped for that subscriber only, and every other
currently-registered queue receives the event appended. -/
theorem c3_publish_fanout {α : Type} (subs : List (PyQueue α)) (e : α) :
    EventBus.publish subs e
        = subs.map (fun q => if q.full then q else ⟨q.maxsize, q.items ++ [e]⟩)
      ∧ EventBus.subscribe subs = (subs ++ [⟨0, []⟩], ⟨0, []⟩) := by
  refine ⟨?_, rfl⟩
  induction subs with
  | nil => rfl
  | cons q t ih =>
    unfold EventBus.publish at ih ⊢
    simp only [List.map_cons, ih]
    by_cases h : q.full <;> simp [PyQueue.put_nowait, h]

/-- C8: a session whose transport connects but whose enumerated services do
not contain the target service UUID (case-insensitive) closes the transport
and terminates with no Registry insertion and no published event. -/
theorem c8_service_verify_rejects (cfg : BLEConfig) (inp : ConnectInputs)
    (h : pyLower cfg.service_uuid ∉ inp.services.map pyLower) :
    connect_device cfg inp true = { added := none, events := [], closed := true } := by
  unfold connect_device
  simp [h]

/-- A connected peripheral exposing only the standard battery service, not
the scoreboard service. -/
def inpWrongService : ConnectInputs :=
  { address := [10], name := none
    services := [str_ "0000180F-0000-1000-8000-00805F9B34FB"]
    rx_read := none, tx_read := none }

/-- Witness for C8 at a concrete input: a device exposing only the battery
service is disconnected, never inserted, and nothing is published. -/
theorem c8_service_verify_rejects_witness :
    pyLower cfgPermissive.service_uuid ∉ inpWrongService.services.map pyLower
      ∧ connect_device cfgPermissive inpWrongService true
        = { added := none, events := [], closed := true } :=
  ⟨by decide, c8_service_verify_rejects cfgPermissive inpWrongService (by decide)⟩

/-- C9: the RX update path publishes a `device_updated` event exactly when
the address is registered and the decoded record carries a `game_name` or
`score` that differs from the stored state; when it publishes nothing, the
Registry is left unchanged (no duplicate events from unchanged values). -/
theorem c9_rx_update_iff (reg : Registry) (addr : Str) (data : List (Str × PyValue)) :
    ((handle_rx_data reg addr data).2 ≠ [] ↔ rxChanged reg addr data)
      ∧ ((handle_rx_data reg addr data).2 = [] → (handle_rx_data reg addr data).1 = reg) := by
  unfold handle_rx_data rxChanged
  cases hl : lookupReg reg addr with
  | none => simp
  | some dev =>
    cases hg : lookupD data (str_ "game_name") with
    | none =>
      cases hs : lookupD data (str_ "score") with
      | none => simp
      | some w => by_cases hw : pyEq w dev.score = true <;> simp [hw]
    | some v =>
      by_cases hv : pyEq v dev.game_name = true
      · cases hs : lookupD data (str_ "score") with
        | none => simp [hv]
        | some w => by_cases hw : pyEq w dev.score = true <;> simp [hv, hw]
      · cases hs : lookupD data (str_ "score") with
        | none => simp [hv]
        | some w => by_cases hw : pyEq w dev.score = true <;> simp [hv, hw]

/-- A one-device Registry for the C9 witness. -/
def regSample : Registry :=
  [([1], { id := [1], name := [1], game_name := PyValue.str (str_ "Unknown Game")
           score := PyValue.int 0, color := deterministic_color [1] })]

/-- Witness for C9 at a concrete input: a record for an unregistered
address publishes nothing and leaves the Registry unchanged. -/
theorem c9_rx_update_iff_witness :
    (handle_rx_data regSample [2] [(str_ "score", PyValue.int 5)]).2 = []
      ∧ (handle_rx_data regSample [2] [(str_ "score", PyValue.int 5)]).1 = regSample :=
  ⟨rfl, (c9_rx_update_iff regSample [2] [(str_ "score", PyValue.int 5)]).2 rfl⟩
